import Mathlib

/-!
# Access control and feed construction of `app.js`

A shallow embedding of the request handlers of `src/app.js` (an Express
application over a SQLite database) together with the properties of the
handlers that the specification states.

Modelling conventions.

* The database is a record of five tables, each a list of rows in storage
  order.  Only the columns that `app.js` names are kept.
* Every `db.get` / `db.all` / `db.run` call is assumed to succeed (the
  `err` branch that answers 500 is the storage engine failing, which is outside
  the model), so a handler is a function from the store and the request to
  the new store and the response.
* The identifier columns (`user_id`, `tweet_id`, ...) hold integers.  A value
  bound with `?` from a JavaScript string is TEXT; SQLite compares it with an
  integer column by first reading the text as a number.  That reading is a
  parameter `E : SqlEngine` of the handlers, so what is proved of a handler
  holds for every reading; `sqlite3` is the reading used to evaluate the
  handlers at concrete inputs.
* `bcrypt` and `jsonwebtoken` are external libraries and are parameters of
  the handlers that call them.
-/

set_option autoImplicit false

namespace TwitterClone

/-! ## Responses -/

/-- One row of the feed query: `t.tweet, u.username, t.date_time`. -/
structure FeedEntry where
  tweet : String
  username : String
  date_time : Nat
  deriving DecidableEq, Repr

/-- The row of the tweet detail query: `tweet, likes, replies, date_time`. -/
structure TweetDetail where
  tweet : String
  likes : Nat
  replies : Nat
  date_time : Nat
  deriving DecidableEq, Repr

/-- One row of the replies query: `u.name, r.reply`. -/
structure ReplyEntry where
  name : String
  reply : String
  deriving DecidableEq, Repr

/-- What a handler sends: a text (`res.send("...")`) or one of the JSON
shapes the handlers build. -/
inductive Body where
  | text (s : String)
  | feed (rows : List FeedEntry)
  | names (ns : List String)
  | tweet (row : TweetDetail)
  | likes (usernames : List String)
  | replies (rows : List ReplyEntry)
  | jwtToken (token : String)
  deriving DecidableEq, Repr

/-- A response: the status code and the body. -/
structure Response where
  status : Nat
  body : Body
  deriving DecidableEq, Repr

/-- The refusal `res.status(401).send("Invalid Request")`. -/
def invalidRequest : Response := ⟨401, .text "Invalid Request"⟩

/-- The refusal `res.status(401).send("Invalid JWT Token")`. -/
def invalidJwtToken : Response := ⟨401, .text "Invalid JWT Token"⟩

/-- The refusal `res.status(401).send("Invalid User")`. -/
def invalidUser : Response := ⟨401, .text "Invalid User"⟩

/-- The answer `res.send(x)` / `res.json(x)` without `res.status`: status 200. -/
def ok (b : Body) : Response := ⟨200, b⟩

/-! ## Tables -/

/-- A row of `user`. -/
structure UserRow where
  user_id : Nat
  name : String
  username : String
  password : String
  gender : String
  deriving DecidableEq, Repr

/-- A row of `follower`: `follower_user_id` follows `following_user_id`. -/
structure FollowerRow where
  follower_user_id : Nat
  following_user_id : Nat
  deriving DecidableEq, Repr

/-- A row of `tweet`.  `date_time` is the instant the `datetime()` text names
(the text `YYYY-MM-DD HH:MM:SS` is ordered like the instant). -/
structure TweetRow where
  tweet_id : Nat
  tweet : String
  user_id : Nat
  date_time : Nat
  deriving DecidableEq, Repr

/-- A row of `like`.  `user_id` is what the scalar subquery
`(SELECT user_id FROM user WHERE username = ?)` gave at insertion: NULL
(`none`) when no account has the username. -/
structure LikeRow where
  like_id : Nat
  tweet_id : Nat
  user_id : Option Nat
  deriving DecidableEq, Repr

/-- A row of `reply`; `user_id` as in `LikeRow`. -/
structure ReplyRow where
  reply_id : Nat
  tweet_id : Nat
  user_id : Option Nat
  reply : String
  deriving DecidableEq, Repr

/-- The database `twitterClone.db`. -/
structure Store where
  users : List UserRow
  followers : List FollowerRow
  tweets : List TweetRow
  likes : List LikeRow
  replies : List ReplyRow
  deriving DecidableEq, Repr

/-! ## SQLite value comparison -/

/-- The value of a decimal digit character, if it is one. -/
def digitVal (c : Char) : Option Nat :=
  if 48 ≤ c.toNat ∧ c.toNat ≤ 57 then some (c.toNat - 48) else none

/-- The white space SQLite skips around a number: blank, tab, line feed,
vertical tab, form feed, carriage return. -/
def isSqlSpace (c : Char) : Bool :=
  c.toNat == 32 || (9 ≤ c.toNat && c.toNat ≤ 13)

/-- Reads the longest run of decimal digits at the head of the text on top of
the value `acc`: the value read, the number of digits read, the rest. -/
def takeDigits : List Char → Nat → Nat → Nat × Nat × List Char
  | [], acc, n => (acc, n, [])
  | c :: cs, acc, n =>
    match digitVal c with
    | some d => takeDigits cs (10 * acc + d) (n + 1)
    | none => (acc, n, c :: cs)

/-- Reads an optional sign at the head of the text: whether it is a minus, and
the rest. -/
def takeSign : List Char → Bool × List Char
  | [] => (false, [])
  | c :: cs => if c = '-' then (true, cs) else if c = '+' then (false, cs) else (false, c :: cs)

/-- A number read from text: `digits * 10 ^ scale`, negated when `negative`. -/
structure SqlNumber where
  negative : Bool
  digits : Nat
  scale : Int
  deriving DecidableEq, Repr

/-- The number a text spells for SQLite's numeric affinity, if the whole text
is one: optional white space, an optional sign, digits with an optional
decimal point (at least one digit in all), an optional exponent `e` or `E`
with an optional sign and at least one digit, optional white space. -/
def readNumber (text : List Char) : Option SqlNumber :=
  let (negative, afterSign) := takeSign (text.dropWhile isSqlSpace)
  let (whole, nWhole, afterWhole) := takeDigits afterSign 0 0
  let (digits, nFraction, afterFraction) :=
    match afterWhole with
    | [] => (whole, 0, [])
    | c :: cs => if c = '.' then takeDigits cs whole 0 else (whole, 0, c :: cs)
  let finish (scale : Int) (rest : List Char) : Option SqlNumber :=
    if rest.dropWhile isSqlSpace = [] ∧ 0 < nWhole + nFraction then
      some ⟨negative, digits, scale⟩
    else none
  match afterFraction with
  | [] => finish (-(nFraction : Int)) []
  | c :: cs =>
    if c = 'e' ∨ c = 'E' then
      let (expNegative, afterExpSign) := takeSign cs
      let (exponent, nExponent, afterExponent) := takeDigits afterExpSign 0 0
      if nExponent = 0 then none
      else
        finish ((if expNegative then -(exponent : Int) else (exponent : Int)) - nFraction)
          afterExponent
    else finish (-(nFraction : Int)) (c :: cs)

/-- The non-negative integer a number equals, if it equals one. -/
def SqlNumber.asNat (n : SqlNumber) : Option Nat :=
  if n.digits = 0 then some 0
  else if n.negative then none
  else if 0 ≤ n.scale then some (n.digits * 10 ^ n.scale.toNat)
  else if n.digits % 10 ^ (-n.scale).toNat = 0 then some (n.digits / 10 ^ (-n.scale).toNat)
  else none

/-- The integer a TEXT value equals when SQLite applies numeric affinity to
it for a comparison with an integer column: the text is read as a number
("1", " 1", "+1", "1.0", "1e0" all read as 1) and that number is an integer;
text that is no number ("alice") equals no integer.  The number is kept exact
here; SQLite holds a number with a fraction or exponent as a 64-bit float. -/
def sqlTextToInt (s : String) : Option Nat :=
  match readNumber s.data with
  | none => none
  | some n => n.asNat

/-- The part of the storage engine the handlers' comparisons go through: for a
JavaScript string bound with `?`, the integer it compares equal to in
`integer_column = ?`, if any. -/
structure SqlEngine where
  textAsInt : String → Option Nat

/-- The engine with the reading `sqlTextToInt`, used to evaluate the handlers
at concrete inputs. -/
def sqlite3 : SqlEngine := ⟨sqlTextToInt⟩

/-- The SQL comparison `col = ?` of an integer column with a bound JavaScript
string: the text is read as a number and compared by value; text that is no
number equals no integer. -/
def sqlIntEqText (E : SqlEngine) (col : Nat) (param : String) : Bool :=
  E.textAsInt param == some col

/-- The value the next `INSERT` gets in an integer primary key column: one
more than the largest value in use. -/
def nextId (ids : List Nat) : Nat := ids.foldr max 0 + 1

/-! ## Account lookup -/

/-- The query `SELECT * FROM user WHERE username = ?` through `db.get`: the
first row with the username, if any. -/
def findUser (s : Store) (username : String) : Option UserRow :=
  s.users.find? (fun u => u.username == username)

/-- The query `SELECT user_id FROM user WHERE username = ?`, as `db.get` and
as a scalar subquery: the `user_id` of the first row with the username, or
NULL. -/
def userIdOf (s : Store) (username : String) : Option Nat :=
  (findUser s username).map (·.user_id)

/-! ## GET /user/tweets/feed -/

/-- A row of the feed join `tweet AS t JOIN follower AS f JOIN user AS u`. -/
structure FeedJoinRow where
  t : TweetRow
  f : FollowerRow
  u : UserRow
  deriving DecidableEq, Repr

/-- The FROM and WHERE clauses of the feed query:
`tweet AS t JOIN follower AS f ON t.user_id = f.following_user_id
 JOIN user AS u ON t.user_id = u.user_id WHERE f.follower_user_id = ?`. -/
def feedJoin (s : Store) (userId : Nat) : List FeedJoinRow :=
  s.tweets.flatMap fun t =>
    (s.followers.filter fun f => t.user_id == f.following_user_id).flatMap fun f =>
      ((s.users.filter fun u => t.user_id == u.user_id).map fun u =>
        (⟨t, f, u⟩ : FeedJoinRow)).filter fun r => r.f.follower_user_id == userId

/-- The order of `ORDER BY t.date_time DESC`: later first. -/
def feedOrder (a b : FeedJoinRow) : Prop := b.t.date_time ≤ a.t.date_time

instance : DecidableRel feedOrder := fun a b =>
  inferInstanceAs (Decidable (b.t.date_time ≤ a.t.date_time))

/-- The joined rows the feed query keeps: `ORDER BY t.date_time DESC LIMIT 4`.
SQL leaves the order among rows with equal `date_time` open; here they keep
their join order. -/
def feedRows (s : Store) (userId : Nat) : List FeedJoinRow :=
  ((feedJoin s userId).insertionSort feedOrder).take 4

/-- The SELECT list of the feed query: `t.tweet, u.username, t.date_time`. -/
def feedSelect (r : FeedJoinRow) : FeedEntry :=
  ⟨r.t.tweet, r.u.username, r.t.date_time⟩

/-- The handler of `GET /user/tweets/feed` after `authenticateToken` has set
`req.username`. -/
def getFeed (s : Store) (username : String) : Response :=
  match userIdOf s username with
  | none => invalidUser
  | some userId => ok (.feed ((feedRows s userId).map feedSelect))

/-! ## GET /user/following and GET /user/followers -/

/-- The handler of `GET /user/following` after `authenticateToken`:
`SELECT u.name FROM user AS u JOIN follower AS f
 ON u.user_id = f.following_user_id WHERE f.follower_user_id = ?`. -/
def getFollowing (s : Store) (username : String) : Response :=
  match userIdOf s username with
  | none => invalidUser
  | some userId =>
    ok (.names (s.users.flatMap fun u =>
      ((s.followers.filter fun f => u.user_id == f.following_user_id).filter fun f =>
        f.follower_user_id == userId).map fun _ => u.name))

/-- The handler of `GET /user/followers` after the token is verified:
`SELECT u.name FROM user AS u JOIN follower AS f
 ON u.user_id = f.follower_user_id
 WHERE f.following_user_id = (SELECT user_id FROM user WHERE username = ?)`. -/
def getFollowers (s : Store) (username : String) : Response :=
  ok (.names (s.users.flatMap fun u =>
    ((s.followers.filter fun f => u.user_id == f.follower_user_id).filter fun f =>
      userIdOf s username == some f.following_user_id).map fun _ => u.name))

/-! ## Access checks of the tweet handlers -/

/-- The WHERE clause of the three read handlers, on a tweet row `t`, with the
parameters `[tweetId, username, username]` bound in that order:
`t.tweet_id = ? AND (t.user_id = ? OR EXISTS (SELECT 1 FROM follower AS f
 WHERE f.follower_user_id = ? AND f.following_user_id = t.user_id))`. -/
def viewWhere (E : SqlEngine) (s : Store) (username tweetId : String) (t : TweetRow) : Bool :=
  sqlIntEqText E t.tweet_id tweetId &&
    (sqlIntEqText E t.user_id username ||
      s.followers.any fun f =>
        sqlIntEqText E f.follower_user_id username && f.following_user_id == t.user_id)

/-- The WHERE clause of the like and reply handlers, with the parameters
`[tweetId, username]`:
`t.tweet_id = ? AND EXISTS (SELECT 1 FROM follower AS f
 WHERE f.follower_user_id = ? AND f.following_user_id = t.user_id)`. -/
def engageWhere (E : SqlEngine) (s : Store) (username tweetId : String) (t : TweetRow) : Bool :=
  sqlIntEqText E t.tweet_id tweetId &&
    s.followers.any fun f =>
      sqlIntEqText E f.follower_user_id username && f.following_user_id == t.user_id

/-- The check query `SELECT 1 FROM tweet AS t WHERE ...` of
`GET /tweets/:tweetId/likes` and `GET /tweets/:tweetId/replies` through
`db.get`: the first tweet row that passes. -/
def viewCheck (E : SqlEngine) (s : Store) (username tweetId : String) : Option TweetRow :=
  s.tweets.find? (viewWhere E s username tweetId)

/-- The check query of `POST /tweets/:tweetId/likes` and
`POST /tweets/:tweetId/replies` through `db.get`. -/
def engageCheck (E : SqlEngine) (s : Store) (username tweetId : String) : Option TweetRow :=
  s.tweets.find? (engageWhere E s username tweetId)

/-! ## GET /tweets/:tweetId -/

/-- The rows a LEFT JOIN pairs with one left row: the matching right rows,
or a single all-NULL row when none matches. -/
def leftJoin {α : Type} (matching : List α) : List (Option α) :=
  match matching with
  | [] => [none]
  | rows => rows.map some

/-- A row of `tweet AS t LEFT JOIN like AS l LEFT JOIN reply AS r`. -/
structure DetailJoinRow where
  t : TweetRow
  l : Option LikeRow
  r : Option ReplyRow
  deriving DecidableEq, Repr

/-- The rows of the two LEFT JOINs for one tweet row:
`t LEFT JOIN like AS l ON t.tweet_id = l.tweet_id
 LEFT JOIN reply AS r ON t.tweet_id = r.tweet_id`. -/
def detailRowsOf (s : Store) (t : TweetRow) : List DetailJoinRow :=
  (leftJoin (s.likes.filter fun l => t.tweet_id == l.tweet_id)).flatMap fun l =>
    (leftJoin (s.replies.filter fun r => t.tweet_id == r.tweet_id)).map fun r =>
      (⟨t, l, r⟩ : DetailJoinRow)

/-- The FROM and WHERE clauses of the detail query:
`tweet AS t LEFT JOIN like AS l ... LEFT JOIN reply AS r ... WHERE ...`. -/
def detailJoin (E : SqlEngine) (s : Store) (username tweetId : String) : List DetailJoinRow :=
  (s.tweets.flatMap (detailRowsOf s)).filter fun j => viewWhere E s username tweetId j.t

/-- The aggregate `COUNT(l.like_id)`: the rows of the group whose `like_id` is not
NULL. -/
def countLikeId (rows : List DetailJoinRow) : Nat :=
  (rows.filter fun j => j.l.isSome).length

/-- The aggregate `COUNT(r.reply_id)`: the rows of the group whose `reply_id` is
not NULL. -/
def countReplyId (rows : List DetailJoinRow) : Nat :=
  (rows.filter fun j => j.r.isSome).length

/-- The handler of `GET /tweets/:tweetId` after `authenticateToken`.  Every
row that passes `t.tweet_id = ?` carries the one `tweet_id` the parameter
spells, so `GROUP BY t.tweet_id` forms at most one group; its bare columns
`t.tweet` and `t.date_time` are read from the first row. -/
def getTweet (E : SqlEngine) (s : Store) (username tweetId : String) : Response :=
  match detailJoin E s username tweetId with
  | [] => invalidRequest
  | j :: js =>
    ok (.tweet ⟨j.t.tweet, countLikeId (j :: js), countReplyId (j :: js), j.t.date_time⟩)

/-! ## GET /tweets/:tweetId/likes and GET /tweets/:tweetId/replies -/

/-- The query `SELECT u.username FROM user AS u INNER JOIN like AS l
ON u.user_id = l.user_id WHERE l.tweet_id = ?`. -/
def likerUsernames (E : SqlEngine) (s : Store) (tweetId : String) : List String :=
  s.users.flatMap fun u =>
    ((s.likes.filter fun l => l.user_id == some u.user_id).filter fun l =>
      sqlIntEqText E l.tweet_id tweetId).map fun _ => u.username

/-- The handler of `GET /tweets/:tweetId/likes` after `authenticateToken`. -/
def getLikes (E : SqlEngine) (s : Store) (username tweetId : String) : Response :=
  match viewCheck E s username tweetId with
  | none => invalidRequest
  | some _ => ok (.likes (likerUsernames E s tweetId))

/-- The query `SELECT u.name, r.reply FROM reply AS r INNER JOIN user AS u
ON r.user_id = u.user_id WHERE r.tweet_id = ?`. -/
def replyRows (E : SqlEngine) (s : Store) (tweetId : String) : List ReplyEntry :=
  s.replies.flatMap fun r =>
    ((s.users.filter fun u => r.user_id == some u.user_id).filter fun _ =>
      sqlIntEqText E r.tweet_id tweetId).map fun u => (⟨u.name, r.reply⟩ : ReplyEntry)

/-- The handler of `GET /tweets/:tweetId/replies` after `authenticateToken`. -/
def getReplies (E : SqlEngine) (s : Store) (username tweetId : String) : Response :=
  match viewCheck E s username tweetId with
  | none => invalidRequest
  | some _ => ok (.replies (replyRows E s tweetId))

/-! ## POST /tweets/:tweetId/likes and POST /tweets/:tweetId/replies -/

/-- The handler of `POST /tweets/:tweetId/likes` after `authenticateToken`.
The `tweet_id` stored is the integer the bound text spells, which is the
`tweet_id` of the row the check found. -/
def postLike (E : SqlEngine) (s : Store) (username tweetId : String) : Store × Response :=
  match engageCheck E s username tweetId with
  | none => (s, invalidRequest)
  | some t =>
    ({ s with likes := s.likes ++
        [⟨nextId (s.likes.map (·.like_id)), t.tweet_id, userIdOf s username⟩] },
      ok (.text "Liked the Tweet"))

/-- The handler of `POST /tweets/:tweetId/replies` after `authenticateToken`. -/
def postReply (E : SqlEngine) (s : Store) (username tweetId reply : String) : Store × Response :=
  match engageCheck E s username tweetId with
  | none => (s, invalidRequest)
  | some t =>
    ({ s with replies := s.replies ++
        [⟨nextId (s.replies.map (·.reply_id)), t.tweet_id, userIdOf s username, reply⟩] },
      ok (.text "Replied to the Tweet"))

/-! ## DELETE /tweets/:tweetId/ -/

/-- The WHERE clause of the delete statement, on a tweet row:
`tweet_id = ? AND user_id = (SELECT user_id FROM user WHERE username = ?)`.
A NULL subquery value equals nothing. -/
def deleteWhere (E : SqlEngine) (s : Store) (username tweetId : String) (t : TweetRow) : Bool :=
  sqlIntEqText E t.tweet_id tweetId && (userIdOf s username == some t.user_id)

/-- The handler of `DELETE /tweets/:tweetId/` after the token is verified:
one `DELETE` statement, then the answer by `this.changes`. -/
def deleteTweet (E : SqlEngine) (s : Store) (username tweetId : String) : Store × Response :=
  let changes := (s.tweets.filter (deleteWhere E s username tweetId)).length
  let s' := { s with tweets := s.tweets.filter fun t => !deleteWhere E s username tweetId t }
  if changes = 0 then (s', invalidRequest) else (s', ok (.text "Tweet Removed"))

/-! ## POST /register and POST /login -/

/-- The two `bcrypt` calls of `app.js`. -/
structure Bcrypt where
  /-- The call `bcrypt.hashSync(password, 10)`. -/
  hashSync : String → String
  /-- The call `bcrypt.compareSync(password, hash)`. -/
  compareSync : String → String → Bool

/-- The `length` of a JavaScript string: its number of UTF-16 code units
(two for a character beyond U+FFFF). -/
def jsLength (s : String) : Nat :=
  (s.data.map fun c => if c.toNat < 65536 then 1 else 2).sum

/-- The handler of `POST /register`. -/
def register (B : Bcrypt) (s : Store) (username password name gender : String) :
    Store × Response :=
  match findUser s username with
  | some _ => (s, ⟨400, .text "User already exists"⟩)
  | none =>
    if jsLength password < 6 then (s, ⟨400, .text "Password is too short"⟩)
    else
      ({ s with users := s.users ++
          [⟨nextId (s.users.map (·.user_id)), name, username, B.hashSync password, gender⟩] },
        ⟨200, .text "User created successfully"⟩)

/-- The two `jsonwebtoken` calls of `app.js`.  The payload is `{ username }`,
so signing takes the username and verifying gives the username back. -/
structure Jwt where
  /-- The call `jwt.sign({ username }, key)`. -/
  sign : String → String → String
  /-- The call `jwt.verify(token, key, callback)`: the decoded `username`, or
  `none` when the callback gets an error.  The key is `none` when the
  environment variable read for it is unset. -/
  verify : String → Option String → Option String

/-- The constant `jwtSecretKey`. -/
def jwtSecretKey : String := "your-secret-key"

/-- The handler of `POST /login`. -/
def login (B : Bcrypt) (J : Jwt) (s : Store) (username password : String) : Response :=
  match findUser s username with
  | none => ⟨400, .text "Invalid user"⟩
  | some row =>
    if B.compareSync password row.password then ok (.jwtToken (J.sign username jwtSecretKey))
    else ⟨400, .text "Invalid password"⟩

/-! ## Token verification at the entry points -/

/-- The JavaScript `split` of a string on a one-character separator. -/
def jsSplit (sep : Char) : List Char → List (List Char)
  | [] => [[]]
  | c :: cs =>
    if c = sep then [] :: jsSplit sep cs
    else
      match jsSplit sep cs with
      | [] => [[c]]
      | p :: ps => (c :: p) :: ps

/-- The expression `authHeader && authHeader.split(" ")[1]` when it is truthy: the
second piece of the header, when the header is present and non-empty and the
piece exists and is non-empty. -/
def bearerToken (authorization : Option String) : Option String :=
  match authorization with
  | none => none
  | some authHeader =>
    if authHeader.data = [] then none
    else
      match (jsSplit ' ' authHeader.data).get? 1 with
      | none => none
      | some [] => none
      | some piece => some (String.mk piece)

/-- The outcome of verifying the token at an entry point: the refusal sent,
or the handler going on with the decoded username. -/
inductive AuthResult where
  | refused (r : Response)
  | next (username : String)
  deriving DecidableEq, Repr

/-- The middleware `authenticateToken`: `AuthResult.next username` is `next()`
with `req.username` set; `jwtSecret` is `process.env.JWT_SECRET`. -/
def authenticateToken (J : Jwt) (jwtSecret : Option String) (authorization : Option String) :
    AuthResult :=
  match bearerToken authorization with
  | none => .refused invalidJwtToken
  | some token =>
    match J.verify token jwtSecret with
    | none => .refused invalidJwtToken
    | some username => .next username

/-- The verification written inline in `GET /user/followers`,
`GET /user/tweets` and `DELETE /tweets/:tweetId/`: the token is the whole
header value. -/
def inlineVerify (J : Jwt) (jwtSecret : Option String) (authorization : Option String) :
    AuthResult :=
  match authorization with
  | none => .refused invalidJwtToken
  | some token =>
    if token.data = [] then .refused invalidJwtToken
    else
      match J.verify token jwtSecret with
      | none => .refused invalidJwtToken
      | some username => .next username

/-- The route `GET /user/tweets/feed`. -/
def routeGetFeed (J : Jwt) (jwtSecret : Option String) (s : Store)
    (authorization : Option String) : Response :=
  match authenticateToken J jwtSecret authorization with
  | .refused r => r
  | .next username => getFeed s username

/-- The route `DELETE /tweets/:tweetId/`. -/
def routeDeleteTweet (E : SqlEngine) (J : Jwt) (jwtSecret : Option String) (s : Store)
    (authorization : Option String) (tweetId : String) : Store × Response :=
  match inlineVerify J jwtSecret authorization with
  | .refused r => (s, r)
  | .next username => deleteTweet E s username tweetId

/-! ## The access part of the WHERE clauses, as relations -/

/-- The access part of the read handlers' WHERE clause, as a relation between
the credential's username and a tweet row: the row's `user_id` compares equal
to the bound username, or some follower row has a `follower_user_id` that
compares equal to the bound username and the row's author as
`following_user_id`. -/
def mayView (E : SqlEngine) (s : Store) (username : String) (t : TweetRow) : Prop :=
  sqlIntEqText E t.user_id username = true ∨
    ∃ f ∈ s.followers,
      sqlIntEqText E f.follower_user_id username = true ∧ f.following_user_id = t.user_id

/-- The access part of the like and reply handlers' WHERE clause. -/
def mayEngage (E : SqlEngine) (s : Store) (username : String) (t : TweetRow) : Prop :=
  ∃ f ∈ s.followers,
    sqlIntEqText E f.follower_user_id username = true ∧ f.following_user_id = t.user_id

/-- The access part of the delete statement's WHERE clause: the row's author
is the account the username resolves to. -/
def mayDelete (s : Store) (username : String) (t : TweetRow) : Prop :=
  userIdOf s username = some t.user_id

instance (E : SqlEngine) (s : Store) (username : String) (t : TweetRow) : Decidable (mayView E s username t) := by
  unfold mayView; infer_instance

instance (E : SqlEngine) (s : Store) (username : String) (t : TweetRow) : Decidable (mayEngage E s username t) := by
  unfold mayEngage; infer_instance

instance (s : Store) (username : String) (t : TweetRow) : Decidable (mayDelete s username t) := by
  unfold mayDelete; infer_instance

/-! ## Stand-ins for the external libraries and stores, for concrete evaluation -/

/-- A stand-in for `bcrypt` used to evaluate the handlers at concrete inputs:
the hash of a password is the password behind a fixed tag. -/
def demoBcrypt : Bcrypt :=
  { hashSync := fun password => "hash:" ++ password,
    compareSync := fun password hash => hash == "hash:" ++ password }

/-- A stand-in for `jsonwebtoken` used to evaluate the entry points at
concrete inputs: a token is the key, a dot and the username; a token with a
blank in it, or verified without a key or with another key, is rejected. -/
def demoJwt : Jwt :=
  { sign := fun username key => key ++ "." ++ username,
    verify := fun token key =>
      match key with
      | none => none
      | some k =>
        if ' ' ∈ token.data then none
        else if (k ++ ".").data.isPrefixOf token.data then
          some (String.mk (token.data.drop (k ++ ".").data.length))
        else none }

/-- The scenario of the feed: A (1) follows B (2) and C (3); B posts "hello"
at `t1`, C posts "world" at `t2`. -/
def feedScenario (t1 t2 : Nat) : Store :=
  { users := [⟨1, "A", "a", "", ""⟩, ⟨2, "B", "b", "", ""⟩, ⟨3, "C", "c", "", ""⟩],
    followers := [⟨1, 2⟩, ⟨1, 3⟩],
    tweets := [⟨1, "hello", 2, t1⟩, ⟨2, "world", 3, t2⟩],
    likes := [], replies := [] }

/-- A store in which account a (1) follows itself and has posted once. -/
def selfFollowStore : Store :=
  { users := [⟨1, "A", "a", "", ""⟩],
    followers := [⟨1, 1⟩],
    tweets := [⟨1, "mine", 1, 5⟩],
    likes := [], replies := [] }

/-- A store in which A (1) follows B (2) and not itself; A has posted "mine"
and B has posted "hello". -/
def ownTweetStore : Store :=
  { users := [⟨1, "A", "a", "", ""⟩, ⟨2, "B", "b", "", ""⟩],
    followers := [⟨1, 2⟩],
    tweets := [⟨1, "mine", 1, 30⟩, ⟨2, "hello", 2, 10⟩],
    likes := [], replies := [] }

/-- A store with accounts alice (1) and bob (2), alice following bob, and one
tweet of bob, with id 1. -/
def followStore : Store :=
  { users := [⟨1, "Alice", "alice", "", ""⟩, ⟨2, "Bob", "bob", "", ""⟩],
    followers := [⟨1, 2⟩],
    tweets := [⟨1, "p1", 2, 5⟩],
    likes := [], replies := [] }

/-- A store with accounts alice (1) and an account whose username is the text
"1" (2), nobody following anybody, and one tweet of alice, with id 1. -/
def ownPostStore : Store :=
  { users := [⟨1, "Alice", "alice", "", ""⟩, ⟨2, "One", "1", "", ""⟩],
    followers := [],
    tweets := [⟨1, "p1", 1, 5⟩],
    likes := [], replies := [] }

/-- The store `ownPostStore` before alice posted tweet 1: no tweet at all. -/
def noPostStore : Store :=
  { ownPostStore with tweets := [] }

/-- A store with accounts alice (1), bob (2) and an account whose username is
the text "1" (3); alice follows bob, the third account follows nobody; bob has
posted tweet 1. -/
def thirdPartyStore : Store :=
  { users := [⟨1, "Alice", "alice", "", ""⟩, ⟨2, "Bob", "bob", "", ""⟩,
      ⟨3, "Three", "1", "", ""⟩],
    followers := [⟨1, 2⟩],
    tweets := [⟨1, "p1", 2, 5⟩],
    likes := [], replies := [] }

/-- The store `thirdPartyStore` before bob posted tweet 1: no tweet at all. -/
def thirdPartyStoreBefore : Store :=
  { thirdPartyStore with tweets := [] }

/-- A store with one account (username "1", user id 1) and its tweet 1, which
has two like rows and two reply rows. -/
def twoByTwoStore : Store :=
  { users := [⟨1, "One", "1", "", ""⟩],
    followers := [],
    tweets := [⟨1, "p1", 1, 5⟩],
    likes := [⟨1, 1, some 1⟩, ⟨2, 1, some 1⟩],
    replies := [⟨1, 1, some 1, "r1"⟩, ⟨2, 1, some 1, "r2"⟩] }

/-- A store with the account alice, whose stored password is the `demoBcrypt`
hash of "secret1". -/
def loginStore : Store :=
  { users := [⟨1, "Alice", "alice", "hash:secret1", "f"⟩],
    followers := [], tweets := [], likes := [], replies := [] }

/-! ## Lemmas on the feed query -/

instance : IsTotal FeedJoinRow feedOrder := ⟨fun a b => Nat.le_total b.t.date_time a.t.date_time⟩

instance : IsTrans FeedJoinRow feedOrder := ⟨fun _ _ _ hab hbc => Nat.le_trans hbc hab⟩

theorem mem_feedJoin {s : Store} {userId : Nat} {r : FeedJoinRow} :
    r ∈ feedJoin s userId ↔
      r.t ∈ s.tweets ∧ r.f ∈ s.followers ∧ r.u ∈ s.users ∧
        r.t.user_id = r.f.following_user_id ∧ r.t.user_id = r.u.user_id ∧
        r.f.follower_user_id = userId := by
  obtain ⟨t, f, u⟩ := r
  simp only [feedJoin, List.mem_flatMap, List.mem_filter, List.mem_map, beq_iff_eq]
  constructor
  · rintro ⟨t', ht, f', ⟨hf, hft⟩, ⟨u', ⟨hu, hut⟩, heq⟩, hfol⟩
    cases heq
    exact ⟨ht, hf, hu, hft, hut, hfol⟩
  · rintro ⟨ht, hf, hu, hft, hut, hfol⟩
    exact ⟨t, ht, f, ⟨hf, hft⟩, ⟨u, ⟨hu, hut⟩, rfl⟩, hfol⟩

theorem mem_feedJoin_of_mem_feedRows {s : Store} {userId : Nat} {r : FeedJoinRow}
    (h : r ∈ feedRows s userId) : r ∈ feedJoin s userId :=
  (List.perm_insertionSort feedOrder (feedJoin s userId)).mem_iff.mp (List.mem_of_mem_take h)

theorem feedRows_length_le (s : Store) (userId : Nat) : (feedRows s userId).length ≤ 4 := by
  simp [feedRows, List.length_take]

theorem feedRows_sorted (s : Store) (userId : Nat) :
    (feedRows s userId).Pairwise feedOrder :=
  List.Pairwise.sublist (List.take_sublist 4 _) (List.sorted_insertionSort feedOrder _)

theorem getFeed_of_userId {s : Store} {username : String} {userId : Nat}
    (h : userIdOf s username = some userId) :
    getFeed s username =
      ok (.feed ((feedRows s userId).map fun r => ⟨r.t.tweet, r.u.username, r.t.date_time⟩)) := by
  simp only [getFeed, h]
  rfl

/-! ## The feed: bound, order, provenance -/

/-- C4: the feed handler either answers "Invalid User" (no account has the
username) or returns a list of at most 4 entries whose `date_time` values are
in non-increasing order; and in the scenario where A follows B and C, B posts
"hello" at `t1` and C posts "world" at `t2 > t1`, the feed of A is
"world" then "hello". -/
theorem getFeed_bounded_sorted (s : Store) (username : String) :
    ((userIdOf s username = none ∧ getFeed s username = invalidUser) ∨
      ∃ rows, getFeed s username = ok (.feed rows) ∧ rows.length ≤ 4 ∧
        rows.Pairwise (fun a b => b.date_time ≤ a.date_time)) ∧
    (∀ t1 t2 : Nat, t1 < t2 →
      getFeed (feedScenario t1 t2) "a" =
        ok (.feed [⟨"world", "c", t2⟩, ⟨"hello", "b", t1⟩])) := by
  refine ⟨?_, ?_⟩
  · cases hu : userIdOf s username with
    | none => exact Or.inl ⟨rfl, by simp [getFeed, hu]⟩
    | some userId =>
      refine Or.inr ⟨_, getFeed_of_userId hu, ?_, ?_⟩
      · simpa using feedRows_length_le s userId
      · rw [List.pairwise_map]
        exact feedRows_sorted s userId
  · intro t1 t2 h
    have h21 : ¬ t2 ≤ t1 := Nat.not_le.mpr h
    have hu : userIdOf (feedScenario t1 t2) "a" = some 1 := by
      simp [userIdOf, findUser, feedScenario]
    rw [getFeed_of_userId hu]
    simp [feedRows, feedJoin, feedScenario, feedSelect, feedOrder, List.insertionSort,
      List.orderedInsert, h21]

/-- C4, at a concrete input: the scenario with `t1 = 10` and `t2 = 20`. -/
theorem getFeed_bounded_sorted_witness :
    (10 : Nat) < 20 ∧
    getFeed (feedScenario 10 20) "a" = ok (.feed [⟨"world", "c", 20⟩, ⟨"hello", "b", 10⟩]) :=
  ⟨by decide, (getFeed_bounded_sorted (feedScenario 10 20) "a").2 10 20 (by decide)⟩

/-- C9: when the viewer's account has id `userId`, the handler returns a list,
and every entry of that list is the text and `date_time` of a tweet row and the
username of its author's user row, for a tweet whose author is the
`following_user_id` of a follower row whose `follower_user_id` is the viewer;
the list is the projection, in order, of the joined rows `feedRows`, each of
which carries such a tweet, author and follower row; and a viewer with no
outgoing follower row gets the empty list. -/
theorem getFeed_only_followed (s : Store) (username : String) (userId : Nat)
    (h : userIdOf s username = some userId) :
    (∃ rows, getFeed s username = ok (.feed rows) ∧
      ∀ e ∈ rows, ∃ t ∈ s.tweets, ∃ u ∈ s.users, ∃ f ∈ s.followers,
        e = ⟨t.tweet, u.username, t.date_time⟩ ∧ u.user_id = t.user_id ∧
        f.follower_user_id = userId ∧ f.following_user_id = t.user_id) ∧
    getFeed s username =
      ok (.feed ((feedRows s userId).map fun r => ⟨r.t.tweet, r.u.username, r.t.date_time⟩)) ∧
    (∀ r ∈ feedRows s userId, r.t ∈ s.tweets ∧ r.u ∈ s.users ∧ r.u.user_id = r.t.user_id ∧
      ∃ f ∈ s.followers, f.follower_user_id = userId ∧ f.following_user_id = r.t.user_id) ∧
    ((∀ f ∈ s.followers, f.follower_user_id ≠ userId) → getFeed s username = ok (.feed [])) := by
  have hrows : ∀ r ∈ feedRows s userId, r.t ∈ s.tweets ∧ r.u ∈ s.users ∧
      r.u.user_id = r.t.user_id ∧
      ∃ f ∈ s.followers, f.follower_user_id = userId ∧ f.following_user_id = r.t.user_id := by
    intro r hr
    have hj := mem_feedJoin.mp (mem_feedJoin_of_mem_feedRows hr)
    exact ⟨hj.1, hj.2.2.1, hj.2.2.2.2.1.symm, r.f, hj.2.1, hj.2.2.2.2.2, hj.2.2.2.1.symm⟩
  refine ⟨⟨_, getFeed_of_userId h, ?_⟩, getFeed_of_userId h, hrows, ?_⟩
  · intro e he
    obtain ⟨r, hr, rfl⟩ := List.mem_map.mp he
    obtain ⟨ht, hu, hut, f, hf, hfol, hfing⟩ := hrows r hr
    exact ⟨r.t, ht, r.u, hu, f, hf, rfl, hut, hfol, hfing⟩
  · intro hnone
    have hnil : feedJoin s userId = [] := by
      apply List.eq_nil_iff_forall_not_mem.mpr
      intro r hr
      have hj := mem_feedJoin.mp hr
      exact hnone r.f hj.2.1 hj.2.2.2.2.2
    rw [getFeed_of_userId h]
    simp [feedRows, hnil]

/-- C9, at concrete inputs: the feed of A in the scenario store is "world" by c
and "hello" by b, every entry being a tweet of an account A follows; and B,
who follows nobody, gets the empty feed. -/
theorem getFeed_only_followed_witness :
    userIdOf (feedScenario 10 20) "a" = some 1 ∧
    getFeed (feedScenario 10 20) "a" = ok (.feed [⟨"world", "c", 20⟩, ⟨"hello", "b", 10⟩]) ∧
    (∃ rows, getFeed (feedScenario 10 20) "a" = ok (.feed rows) ∧
      ∀ e ∈ rows, ∃ t ∈ (feedScenario 10 20).tweets, ∃ u ∈ (feedScenario 10 20).users,
        ∃ f ∈ (feedScenario 10 20).followers,
          e = ⟨t.tweet, u.username, t.date_time⟩ ∧ u.user_id = t.user_id ∧
          f.follower_user_id = 1 ∧ f.following_user_id = t.user_id) ∧
    userIdOf (feedScenario 10 20) "b" = some 2 ∧
    (∀ f ∈ (feedScenario 10 20).followers, f.follower_user_id ≠ 2) ∧
    getFeed (feedScenario 10 20) "b" = ok (.feed []) :=
  ⟨by decide, by decide,
    (getFeed_only_followed (feedScenario 10 20) "a" 1 (by decide)).1,
    by decide, by decide,
    (getFeed_only_followed (feedScenario 10 20) "b" 2 (by decide)).2.2.2 (by decide)⟩

/-- C5, as stated, fails: in a store where account a (id 1) follows itself,
the feed of a holds a's own tweet. -/
theorem getFeed_own_tweet_counterexample :
    userIdOf selfFollowStore "a" = some 1 ∧
    getFeed selfFollowStore "a" = ok (.feed [⟨"mine", "a", 5⟩]) ∧
    ∃ r ∈ feedRows selfFollowStore 1, r.t.user_id = 1 := by
  decide

/-- C5, amended: when the follower table has no row in which the viewer
follows themself, the list returned is the projection, in order, of the joined
rows `feedRows`, and none of those rows carries a tweet authored by the
viewer. -/
theorem getFeed_excludes_own (s : Store) (username : String) (userId : Nat)
    (h : userIdOf s username = some userId)
    (hself : ∀ f ∈ s.followers,
      ¬ (f.follower_user_id = userId ∧ f.following_user_id = userId)) :
    getFeed s username =
      ok (.feed ((feedRows s userId).map fun r => ⟨r.t.tweet, r.u.username, r.t.date_time⟩)) ∧
    ∀ r ∈ feedRows s userId, r.t.user_id ≠ userId := by
  refine ⟨getFeed_of_userId h, ?_⟩
  intro r hr hown
  have hj := mem_feedJoin.mp (mem_feedJoin_of_mem_feedRows hr)
  exact hself r.f hj.2.1 ⟨hj.2.2.2.2.2, by rw [← hj.2.2.2.1, hown]⟩

/-- C5, amended, at a concrete input: A has posted "mine", follows B and not
itself; A's feed is B's "hello" alone, and no row of it is authored by A. -/
theorem getFeed_excludes_own_witness :
    userIdOf ownTweetStore "a" = some 1 ∧
    (⟨1, "mine", 1, 30⟩ : TweetRow) ∈ ownTweetStore.tweets ∧
    (∀ f ∈ ownTweetStore.followers, ¬ (f.follower_user_id = 1 ∧ f.following_user_id = 1)) ∧
    getFeed ownTweetStore "a" = ok (.feed [⟨"hello", "b", 10⟩]) ∧
    (getFeed ownTweetStore "a" =
        ok (.feed ((feedRows ownTweetStore 1).map fun r =>
          ⟨r.t.tweet, r.u.username, r.t.date_time⟩)) ∧
      ∀ r ∈ feedRows ownTweetStore 1, r.t.user_id ≠ 1) :=
  ⟨by decide, by decide, by decide, by decide,
    getFeed_excludes_own ownTweetStore "a" 1 (by decide) (by decide)⟩

/-! ## What the access checks decide -/

theorem sqlIntEqText_iff (E : SqlEngine) (col : Nat) (param : String) :
    sqlIntEqText E col param = true ↔ E.textAsInt param = some col := by
  simp [sqlIntEqText]

theorem viewWhere_iff (E : SqlEngine) (s : Store) (username tweetId : String) (t : TweetRow) :
    viewWhere E s username tweetId t = true ↔
      sqlIntEqText E t.tweet_id tweetId = true ∧ mayView E s username t := by
  simp [viewWhere, mayView]

theorem engageWhere_iff (E : SqlEngine) (s : Store) (username tweetId : String) (t : TweetRow) :
    engageWhere E s username tweetId t = true ↔
      sqlIntEqText E t.tweet_id tweetId = true ∧ mayEngage E s username t := by
  simp [engageWhere, mayEngage]

theorem deleteWhere_iff (E : SqlEngine) (s : Store) (username tweetId : String) (t : TweetRow) :
    deleteWhere E s username tweetId t = true ↔
      sqlIntEqText E t.tweet_id tweetId = true ∧ mayDelete s username t := by
  simp [deleteWhere, mayDelete]

theorem where_false_of_not {p : Bool} {a b : Prop} (hiff : p = true ↔ a ∧ b)
    (h : a → ¬ b) : p = false := by
  cases hp : p with
  | false => rfl
  | true => exact absurd (hiff.mp hp).2 (h (hiff.mp hp).1)

/-- The read check agrees with the policy on user ids exactly for a viewer
whose username spells their own user id. -/
theorem mayView_of_numeral_username (E : SqlEngine) (s : Store) (username : String) (userId : Nat)
    (hnum : E.textAsInt username = some userId) (t : TweetRow) :
    mayView E s username t ↔
      (t.user_id = userId ∨
        ∃ f ∈ s.followers, f.follower_user_id = userId ∧ f.following_user_id = t.user_id) := by
  simp only [mayView, sqlIntEqText_iff, hnum, Option.some.injEq]
  constructor
  · rintro (h | ⟨f, hf, h1, h2⟩)
    · exact Or.inl h.symm
    · exact Or.inr ⟨f, hf, h1.symm, h2⟩
  · rintro (h | ⟨f, hf, h1, h2⟩)
    · exact Or.inl h.symm
    · exact Or.inr ⟨f, hf, h1.symm, h2⟩

/-- A viewer whose username is not a numeral passes no read check and no
engage check, whatever the tables hold. -/
theorem not_mayView_of_text_username (E : SqlEngine) (s : Store) (username : String)
    (htext : E.textAsInt username = none) (t : TweetRow) :
    ¬ mayView E s username t ∧ ¬ mayEngage E s username t := by
  simp [mayView, mayEngage, sqlIntEqText_iff, htext]

theorem mem_tweets_of_mem_detailJoin {E : SqlEngine} {s : Store} {username tweetId : String} {j : DetailJoinRow}
    (h : j ∈ detailJoin E s username tweetId) :
    j.t ∈ s.tweets ∧ viewWhere E s username tweetId j.t = true := by
  simp only [detailJoin, detailRowsOf, List.mem_filter, List.mem_flatMap, List.mem_map] at h
  obtain ⟨⟨t, ht, l, _, r, _, rfl⟩, hw⟩ := h
  exact ⟨ht, hw⟩

theorem getTweet_refused {E : SqlEngine} {s : Store} {username tweetId : String}
    (h : ∀ t ∈ s.tweets, viewWhere E s username tweetId t = false) :
    getTweet E s username tweetId = invalidRequest := by
  have hnil : detailJoin E s username tweetId = [] := by
    apply List.eq_nil_iff_forall_not_mem.mpr
    intro j hj
    have := mem_tweets_of_mem_detailJoin hj
    rw [h j.t this.1] at this
    exact absurd this.2 (by simp)
  simp [getTweet, hnil]

theorem viewCheck_refused {E : SqlEngine} {s : Store} {username tweetId : String}
    (h : ∀ t ∈ s.tweets, viewWhere E s username tweetId t = false) :
    viewCheck E s username tweetId = none := by
  rw [viewCheck, List.find?_eq_none]
  intro t ht
  simp [h t ht]

theorem engageCheck_refused {E : SqlEngine} {s : Store} {username tweetId : String}
    (h : ∀ t ∈ s.tweets, engageWhere E s username tweetId t = false) :
    engageCheck E s username tweetId = none := by
  rw [engageCheck, List.find?_eq_none]
  intro t ht
  simp [h t ht]

theorem leftJoin_ne_nil {α : Type} (l : List α) : ∃ a as, leftJoin l = a :: as := by
  cases l with
  | nil => exact ⟨none, [], rfl⟩
  | cons a as => exact ⟨some a, as.map some, rfl⟩

theorem detailRowsOf_ne_nil (s : Store) (t : TweetRow) :
    ∃ j js, detailRowsOf s t = j :: js ∧ j.t = t := by
  obtain ⟨l, ls, hl⟩ := leftJoin_ne_nil (s.likes.filter fun l => t.tweet_id == l.tweet_id)
  obtain ⟨r, rs, hr⟩ := leftJoin_ne_nil (s.replies.filter fun r => t.tweet_id == r.tweet_id)
  unfold detailRowsOf
  rw [hl, hr, List.flatMap_cons, List.map_cons, List.cons_append]
  exact ⟨_, _, rfl, rfl⟩

theorem detailJoin_eq (E : SqlEngine) (s : Store) (username tweetId : String) :
    detailJoin E s username tweetId =
      (s.tweets.filter (viewWhere E s username tweetId)).flatMap (detailRowsOf s) := by
  unfold detailJoin
  induction s.tweets with
  | nil => rfl
  | cons t ts ih =>
    have hrows : ∀ j ∈ detailRowsOf s t, j.t = t := by
      intro j hj
      simp only [detailRowsOf, List.mem_flatMap, List.mem_map] at hj
      obtain ⟨l, _, r, _, rfl⟩ := hj
      rfl
    rw [List.flatMap_cons, List.filter_append, ih]
    cases hw : viewWhere E s username tweetId t with
    | true =>
      have hall : (detailRowsOf s t).filter (fun j => viewWhere E s username tweetId j.t) =
          detailRowsOf s t := by
        rw [List.filter_eq_self]
        intro j hj
        rw [hrows j hj, hw]
      rw [hall, List.filter_cons_of_pos hw, List.flatMap_cons]
    | false =>
      have hnone : (detailRowsOf s t).filter (fun j => viewWhere E s username tweetId j.t) = [] := by
        rw [List.filter_eq_nil_iff]
        intro j hj
        rw [hrows j hj, hw]
        simp
      rw [hnone, List.filter_cons_of_neg (by simp [hw]), List.nil_append]

/-- The read handlers grant (answer other than 401 "Invalid Request") exactly
when some tweet row has the tweet id and passes the access part of the WHERE
clause. -/
theorem read_granted_iff (E : SqlEngine) (s : Store) (username tweetId : String) :
    (getTweet E s username tweetId ≠ invalidRequest ↔
      ∃ t ∈ s.tweets, sqlIntEqText E t.tweet_id tweetId = true ∧ mayView E s username t) ∧
    (getLikes E s username tweetId ≠ invalidRequest ↔
      ∃ t ∈ s.tweets, sqlIntEqText E t.tweet_id tweetId = true ∧ mayView E s username t) ∧
    (getReplies E s username tweetId ≠ invalidRequest ↔
      ∃ t ∈ s.tweets, sqlIntEqText E t.tweet_id tweetId = true ∧ mayView E s username t) := by
  have hcases : (∃ t ∈ s.tweets, sqlIntEqText E t.tweet_id tweetId = true ∧ mayView E s username t) ∨
      ∀ t ∈ s.tweets, viewWhere E s username tweetId t = false := by
    by_cases h : ∃ t ∈ s.tweets, sqlIntEqText E t.tweet_id tweetId = true ∧ mayView E s username t
    · exact Or.inl h
    · refine Or.inr fun t ht => where_false_of_not (viewWhere_iff E s username tweetId t) ?_
      exact fun hid hview => h ⟨t, ht, hid, hview⟩
  rcases hcases with hex | hno
  · obtain ⟨t, ht, hid, hview⟩ := hex
    have hw : viewWhere E s username tweetId t = true :=
      (viewWhere_iff E s username tweetId t).mpr ⟨hid, hview⟩
    have hsome : ∃ t', viewCheck E s username tweetId = some t' := by
      cases hc : viewCheck E s username tweetId with
      | some t' => exact ⟨t', rfl⟩
      | none =>
        rw [viewCheck, List.find?_eq_none] at hc
        exact absurd hw (hc t ht)
    obtain ⟨t', ht'⟩ := hsome
    have hfilter : ∃ t0 ts, s.tweets.filter (viewWhere E s username tweetId) = t0 :: ts := by
      cases hf : s.tweets.filter (viewWhere E s username tweetId) with
      | cons t0 ts => exact ⟨t0, ts, rfl⟩
      | nil =>
        have hmem : t ∈ s.tweets.filter (viewWhere E s username tweetId) :=
          List.mem_filter.mpr ⟨ht, hw⟩
        rw [hf] at hmem
        exact absurd hmem (List.not_mem_nil _)
    obtain ⟨t0, ts, hf⟩ := hfilter
    obtain ⟨j, js, hj, _⟩ := detailRowsOf_ne_nil s t0
    have hjoin : detailJoin E s username tweetId = j :: (js ++ ts.flatMap (detailRowsOf s)) := by
      rw [detailJoin_eq, hf, List.flatMap_cons, hj, List.cons_append]
    refine ⟨⟨fun _ => ⟨t, ht, hid, hview⟩, fun _ => ?_⟩, ⟨fun _ => ⟨t, ht, hid, hview⟩, fun _ => ?_⟩,
      ⟨fun _ => ⟨t, ht, hid, hview⟩, fun _ => ?_⟩⟩
    · simp [getTweet, hjoin, ok, invalidRequest]
    · simp [getLikes, ht', ok, invalidRequest]
    · simp [getReplies, ht', ok, invalidRequest]
  · have hnot : ¬ ∃ t ∈ s.tweets, sqlIntEqText E t.tweet_id tweetId = true ∧ mayView E s username t := by
      rintro ⟨t, ht, hid, hview⟩
      have := (viewWhere_iff E s username tweetId t).mpr ⟨hid, hview⟩
      rw [hno t ht] at this
      exact absurd this (by simp)
    refine ⟨⟨fun h => absurd (getTweet_refused hno) h, fun h => absurd h hnot⟩,
      ⟨fun h => absurd ?_ h, fun h => absurd h hnot⟩,
      ⟨fun h => absurd ?_ h, fun h => absurd h hnot⟩⟩
    · simp [getLikes, viewCheck_refused hno]
    · simp [getReplies, viewCheck_refused hno]

/-- The like and reply handlers insert a row, and answer success, exactly when
some tweet row has the tweet id and passes the access part of the WHERE
clause; otherwise they leave the store as it was and answer 401. -/
theorem engage_granted_iff (E : SqlEngine) (s : Store) (username tweetId reply : String) :
    ((∃ t ∈ s.tweets, sqlIntEqText E t.tweet_id tweetId = true ∧ mayEngage E s username t) →
      (∃ l, (postLike E s username tweetId).1 = { s with likes := s.likes ++ [l] }) ∧
      (postLike E s username tweetId).2 = ok (.text "Liked the Tweet") ∧
      (∃ r, (postReply E s username tweetId reply).1 = { s with replies := s.replies ++ [r] }) ∧
      (postReply E s username tweetId reply).2 = ok (.text "Replied to the Tweet")) ∧
    ((¬ ∃ t ∈ s.tweets, sqlIntEqText E t.tweet_id tweetId = true ∧ mayEngage E s username t) →
      postLike E s username tweetId = (s, invalidRequest) ∧
      postReply E s username tweetId reply = (s, invalidRequest)) := by
  constructor
  · rintro ⟨t, ht, hid, heng⟩
    have hw : engageWhere E s username tweetId t = true :=
      (engageWhere_iff E s username tweetId t).mpr ⟨hid, heng⟩
    have hsome : ∃ t', engageCheck E s username tweetId = some t' := by
      cases hc : engageCheck E s username tweetId with
      | some t' => exact ⟨t', rfl⟩
      | none =>
        rw [engageCheck, List.find?_eq_none] at hc
        exact absurd hw (hc t ht)
    obtain ⟨t', ht'⟩ := hsome
    refine ⟨⟨⟨nextId (s.likes.map (·.like_id)), t'.tweet_id, userIdOf s username⟩, ?_⟩, ?_,
      ⟨⟨nextId (s.replies.map (·.reply_id)), t'.tweet_id, userIdOf s username, reply⟩, ?_⟩, ?_⟩ <;>
      simp [postLike, postReply, ht']
  · intro hnot
    have hno : ∀ t ∈ s.tweets, engageWhere E s username tweetId t = false := fun t ht =>
      where_false_of_not (engageWhere_iff E s username tweetId t)
        (fun hid heng => hnot ⟨t, ht, hid, heng⟩)
    simp [postLike, postReply, engageCheck_refused hno]

/-! ## Lemmas on the account lookup -/

theorem findUser_isSome_of_mem {s : Store} {username : String}
    (h : ∃ u ∈ s.users, u.username = username) : (findUser s username).isSome = true := by
  obtain ⟨u, hu, hname⟩ := h
  rw [findUser, List.find?_isSome]
  exact ⟨u, hu, by simp [hname]⟩

theorem userIdOf_eq_some {s : Store} {username : String} {userId : Nat}
    (h : userIdOf s username = some userId) :
    ∃ u ∈ s.users, u.username = username ∧ u.user_id = userId := by
  unfold userIdOf findUser at h
  cases hf : s.users.find? (fun u => u.username == username) with
  | none => simp [hf] at h
  | some u =>
    rw [hf] at h
    refine ⟨u, List.mem_of_find?_eq_some hf, ?_, by simpa using h⟩
    simpa using List.find?_some hf

/-! ## Deleting a tweet -/

theorem deleteTweet_refused {E : SqlEngine} {s : Store} {username tweetId : String}
    (h : ∀ t ∈ s.tweets, deleteWhere E s username tweetId t = false) :
    deleteTweet E s username tweetId = (s, invalidRequest) := by
  have hnil : s.tweets.filter (deleteWhere E s username tweetId) = [] := by
    rw [List.filter_eq_nil_iff]
    intro t ht
    simp [h t ht]
  have hall : (s.tweets.filter fun t => !deleteWhere E s username tweetId t) = s.tweets := by
    rw [List.filter_eq_self]
    intro t ht
    simp [h t ht]
  simp [deleteTweet, hnil, hall]

theorem deleteTweet_removed {E : SqlEngine} {s : Store} {username tweetId : String} {t : TweetRow}
    (ht : t ∈ s.tweets) (h : deleteWhere E s username tweetId t = true) :
    (deleteTweet E s username tweetId).2 = ok (.text "Tweet Removed") := by
  have hne : s.tweets.filter (deleteWhere E s username tweetId) ≠ [] := by
    intro hnil
    have hmem : t ∈ s.tweets.filter (deleteWhere E s username tweetId) :=
      List.mem_filter.mpr ⟨ht, h⟩
    rw [hnil] at hmem
    exact List.not_mem_nil _ hmem
  simp [deleteTweet, hne]

/-- C3: for every reading of the tweet id text, every store, username and
tweet id.  Refusal: when no tweet row with the tweet id has as author the
account the username resolves to (in particular when the username resolves to
no account, or when no user row with the username has the author's user id),
the store is unchanged and the answer is 401 "Invalid Request".  Removal: the
answer is "Tweet Removed" exactly when some tweet row has the tweet id and
that author (so it is, when the user rows with the username all have the
author's user id and there is one), and is 401 "Invalid Request" otherwise.
Effect: in every case the other tables are untouched, the tweet rows kept are
exactly those that do not have both the tweet id and that author, and so a
tweet row that is gone had both. -/
theorem deleteTweet_author_only (E : SqlEngine) (s : Store) (username tweetId : String) :
    ((∀ t ∈ s.tweets, sqlIntEqText E t.tweet_id tweetId = true →
        userIdOf s username ≠ some t.user_id) →
      deleteTweet E s username tweetId = (s, invalidRequest)) ∧
    (userIdOf s username = none → deleteTweet E s username tweetId = (s, invalidRequest)) ∧
    ((∀ t ∈ s.tweets, sqlIntEqText E t.tweet_id tweetId = true →
        ∀ u ∈ s.users, u.username = username → u.user_id ≠ t.user_id) →
      deleteTweet E s username tweetId = (s, invalidRequest)) ∧
    ((deleteTweet E s username tweetId).2 = ok (.text "Tweet Removed") ↔
      ∃ t ∈ s.tweets, sqlIntEqText E t.tweet_id tweetId = true ∧
        userIdOf s username = some t.user_id) ∧
    (∀ t ∈ s.tweets, sqlIntEqText E t.tweet_id tweetId = true →
      (∃ u ∈ s.users, u.username = username) →
      (∀ u ∈ s.users, u.username = username → u.user_id = t.user_id) →
      (deleteTweet E s username tweetId).2 = ok (.text "Tweet Removed")) ∧
    ((deleteTweet E s username tweetId).2 = ok (.text "Tweet Removed") ∨
      (deleteTweet E s username tweetId).2 = invalidRequest) ∧
    (deleteTweet E s username tweetId).1 =
      { s with tweets := s.tweets.filter fun t =>
          !(sqlIntEqText E t.tweet_id tweetId && (userIdOf s username == some t.user_id)) } ∧
    (∀ t ∈ s.tweets, t ∉ (deleteTweet E s username tweetId).1.tweets →
      sqlIntEqText E t.tweet_id tweetId = true ∧ userIdOf s username = some t.user_id) := by
  have hrefuse : (∀ t ∈ s.tweets, sqlIntEqText E t.tweet_id tweetId = true →
        userIdOf s username ≠ some t.user_id) →
      deleteTweet E s username tweetId = (s, invalidRequest) := by
    intro hno
    apply deleteTweet_refused
    intro t ht
    exact where_false_of_not (deleteWhere_iff E s username tweetId t) (hno t ht)
  have hstore : (deleteTweet E s username tweetId).1 =
      { s with tweets := s.tweets.filter fun t =>
          !(sqlIntEqText E t.tweet_id tweetId && (userIdOf s username == some t.user_id)) } := by
    simp only [deleteTweet, deleteWhere]
    split <;> rfl
  have hremoved : (deleteTweet E s username tweetId).2 = ok (.text "Tweet Removed") ↔
      ∃ t ∈ s.tweets, sqlIntEqText E t.tweet_id tweetId = true ∧
        userIdOf s username = some t.user_id := by
    constructor
    · intro hresp
      by_contra hnone
      have hno : ∀ t ∈ s.tweets, sqlIntEqText E t.tweet_id tweetId = true →
          userIdOf s username ≠ some t.user_id :=
        fun t ht hid hauth => hnone ⟨t, ht, hid, hauth⟩
      rw [hrefuse hno] at hresp
      have hne : invalidRequest ≠ ok (.text "Tweet Removed") := by decide
      exact hne hresp
    · rintro ⟨t, ht, hid, hauth⟩
      exact deleteTweet_removed ht ((deleteWhere_iff E s username tweetId t).mpr ⟨hid, hauth⟩)
  refine ⟨hrefuse, ?_, ?_, hremoved, ?_, ?_, hstore, ?_⟩
  · intro hnone
    apply hrefuse
    intro t _ _ hsome
    rw [hnone] at hsome
    cases hsome
  · intro hno
    apply hrefuse
    intro t ht hid hsome
    obtain ⟨u, hu, hname, huid⟩ := userIdOf_eq_some hsome
    exact hno t ht hid u hu hname huid
  · intro t ht hid hex hall
    apply hremoved.mpr
    refine ⟨t, ht, hid, ?_⟩
    cases hu : userIdOf s username with
    | none =>
      have hsome := findUser_isSome_of_mem hex
      simp only [userIdOf] at hu
      cases hf : findUser s username with
      | none => rw [hf] at hsome; cases hsome
      | some row => rw [hf] at hu; cases hu
    | some x =>
      obtain ⟨u, hu', hname, huid⟩ := userIdOf_eq_some hu
      rw [← huid, hall u hu' hname]
  · by_cases hex : ∃ t ∈ s.tweets, sqlIntEqText E t.tweet_id tweetId = true ∧
        userIdOf s username = some t.user_id
    · exact Or.inl (hremoved.mpr hex)
    · refine Or.inr ?_
      rw [hrefuse fun t ht hid hauth => hex ⟨t, ht, hid, hauth⟩]
  · intro t ht hgone
    rw [hstore] at hgone
    by_contra hkeep
    apply hgone
    simp only [List.mem_filter]
    refine ⟨ht, ?_⟩
    simp only [Bool.not_eq_true', Bool.and_eq_false_iff, beq_eq_false_iff_ne, ne_eq]
    by_cases hid : sqlIntEqText E t.tweet_id tweetId = true
    · exact Or.inr fun hauth => hkeep ⟨hid, hauth⟩
    · exact Or.inl (by simpa using hid)

/-- C3, at concrete inputs, with the reading `sqlite3`: alice cannot delete
bob's tweet 1, a requester without an account cannot, and bob can, also when
the id is written "1.0". -/
theorem deleteTweet_author_only_witness :
    userIdOf followStore "alice" = some 1 ∧
    deleteTweet sqlite3 followStore "alice" "1" = (followStore, invalidRequest) ∧
    userIdOf followStore "ghost" = none ∧
    deleteTweet sqlite3 followStore "ghost" "1" = (followStore, invalidRequest) ∧
    userIdOf followStore "bob" = some 2 ∧
    (deleteTweet sqlite3 followStore "bob" "1").2 = ok (.text "Tweet Removed") ∧
    (deleteTweet sqlite3 followStore "bob" "1").1.tweets = [] ∧
    (deleteTweet sqlite3 followStore "bob" "1.0").2 = ok (.text "Tweet Removed") ∧
    (deleteTweet sqlite3 followStore "bob" "1.0").1.tweets = [] :=
  ⟨by decide,
    (deleteTweet_author_only sqlite3 followStore "alice" "1").2.2.1 (by decide),
    by decide,
    (deleteTweet_author_only sqlite3 followStore "ghost" "1").2.1 (by decide),
    by decide,
    (deleteTweet_author_only sqlite3 followStore "bob" "1").2.2.2.1.mpr (by decide),
    by decide,
    (deleteTweet_author_only sqlite3 followStore "bob" "1.0").2.2.2.2.1 ⟨1, "p1", 2, 5⟩
      (by decide) (by decide) (by decide) (by decide),
    by decide⟩

/-! ## Registration -/

/-- For a string without characters beyond U+FFFF, the JavaScript `length` is
the number of characters. -/
theorem jsLength_eq_length (s : String) (h : ∀ c ∈ s.data, c.toNat < 65536) :
    jsLength s = s.length := by
  obtain ⟨cs⟩ := s
  show (cs.map fun c => if c.toNat < 65536 then 1 else 2).sum = cs.length
  have h' : ∀ c ∈ cs, c.toNat < 65536 := h
  clear h
  induction cs with
  | nil => rfl
  | cons c cs ih =>
    have hc : c.toNat < 65536 := h' c (by simp)
    have hcs : ∀ c' ∈ cs, c'.toNat < 65536 := fun c' hc' => h' c' (List.mem_cons_of_mem c hc')
    simp [hc, ih hcs, Nat.add_comm]

/-- C8, as stated, fails: a password of three characters U+1F600 has fewer
than 6 characters, yet its JavaScript `length` is 6, and the registration is
answered 200 and inserts the user row. -/
theorem register_short_password_counterexample :
    (String.mk [Char.ofNat 128512, Char.ofNat 128512, Char.ofNat 128512]).length = 3 ∧
    jsLength (String.mk [Char.ofNat 128512, Char.ofNat 128512, Char.ofNat 128512]) = 6 ∧
    (∀ u ∈ followStore.users, u.username ≠ "carol") ∧
    (register demoBcrypt followStore "carol"
      (String.mk [Char.ofNat 128512, Char.ofNat 128512, Char.ofNat 128512]) "Carol" "f").2 =
      ⟨200, .text "User created successfully"⟩ ∧
    ((register demoBcrypt followStore "carol"
      (String.mk [Char.ofNat 128512, Char.ofNat 128512, Char.ofNat 128512]) "Carol" "f").1.users.map
        (·.username)) = ["alice", "bob", "carol"] := by
  decide

/-- C8, amended: a registration whose username is already in the user table, or
whose password has a JavaScript `length` (UTF-16 code units) below 6, is
answered with status 400 and leaves the store as it was, whatever the other
fields are; and after a registration that was answered 200, registering the
same username again (with any password, name and gender) is answered 400
"User already exists" and inserts nothing. -/
theorem register_rejects (B : Bcrypt) (s : Store)
    (username password name gender password2 name2 gender2 : String) :
    (((∃ u ∈ s.users, u.username = username) ∨ jsLength password < 6) →
      (register B s username password name gender).2.status = 400 ∧
      (register B s username password name gender).1 = s) ∧
    ((register B s username password name gender).2.status = 200 →
      register B (register B s username password name gender).1 username password2 name2 gender2 =
        ((register B s username password name gender).1, ⟨400, .text "User already exists"⟩)) := by
  constructor
  · intro h
    unfold register
    cases hf : findUser s username with
    | some row => exact ⟨rfl, rfl⟩
    | none =>
      rcases h with hex | hshort
      · have := findUser_isSome_of_mem hex
        rw [hf] at this
        exact absurd this (by simp)
      · simp [hshort]
  · intro h200
    unfold register at h200 ⊢
    cases hf : findUser s username with
    | some row =>
      rw [hf] at h200
      simp at h200
    | none =>
      rw [hf] at h200
      by_cases hshort : jsLength password < 6
      · rw [if_pos hshort] at h200
        simp at h200
      · have hfind : findUser
            { s with users := s.users ++
                [⟨nextId (s.users.map (·.user_id)), name, username, B.hashSync password, gender⟩] }
            username =
            some ⟨nextId (s.users.map (·.user_id)), name, username, B.hashSync password, gender⟩ := by
          have hnone : s.users.find? (fun u => u.username == username) = none := hf
          simp [findUser, List.find?_append, hnone]
        simp only [if_neg hshort, hfind]

/-- C8, amended, at concrete inputs: a short password and a taken username are
rejected, and a username registered once is rejected the second time. -/
theorem register_rejects_witness :
    register demoBcrypt followStore "carol" "12345" "Carol" "f" =
      (followStore, ⟨400, .text "Password is too short"⟩) ∧
    (register demoBcrypt followStore "alice" "long-enough" "Al" "m").2.status = 400 ∧
    (register demoBcrypt followStore "carol" "secret1" "Carol" "f").2.status = 200 ∧
    (register demoBcrypt (register demoBcrypt followStore "carol" "secret1" "Carol" "f").1
      "carol" "secret2" "C" "f").2 = ⟨400, .text "User already exists"⟩ :=
  ⟨by decide,
    ((register_rejects demoBcrypt followStore "alice" "long-enough" "Al" "m" "" "" "").1
      (Or.inl (by decide))).1,
    by decide,
    congrArg Prod.snd
      ((register_rejects demoBcrypt followStore "carol" "secret1" "Carol" "f" "secret2" "C" "f").2
        (by decide))⟩

/-! ## The refusal and the existence of the tweet -/

/-- Each tweet handler has one refusal: when the access part of its own WHERE
clause rejects every row with the tweet id in `s2`, its response there is the
response in a state `s1` where no row has the tweet id, 401 "Invalid Request". -/
theorem refusal_same_response (E : SqlEngine) (s1 s2 : Store) (username tweetId reply : String)
    (habsent : ∀ t ∈ s1.tweets, sqlIntEqText E t.tweet_id tweetId = false) :
    ((∀ t ∈ s2.tweets, sqlIntEqText E t.tweet_id tweetId = true → ¬ mayView E s2 username t) →
      (getTweet E s1 username tweetId = getTweet E s2 username tweetId ∧
        getTweet E s2 username tweetId = invalidRequest) ∧
      (getLikes E s1 username tweetId = getLikes E s2 username tweetId ∧
        getLikes E s2 username tweetId = invalidRequest) ∧
      (getReplies E s1 username tweetId = getReplies E s2 username tweetId ∧
        getReplies E s2 username tweetId = invalidRequest)) ∧
    ((∀ t ∈ s2.tweets, sqlIntEqText E t.tweet_id tweetId = true → ¬ mayEngage E s2 username t) →
      ((postLike E s1 username tweetId).2 = (postLike E s2 username tweetId).2 ∧
        (postLike E s2 username tweetId).2 = invalidRequest) ∧
      ((postReply E s1 username tweetId reply).2 = (postReply E s2 username tweetId reply).2 ∧
        (postReply E s2 username tweetId reply).2 = invalidRequest)) ∧
    ((∀ t ∈ s2.tweets, sqlIntEqText E t.tweet_id tweetId = true → ¬ mayDelete s2 username t) →
      (deleteTweet E s1 username tweetId).2 = (deleteTweet E s2 username tweetId).2 ∧
        (deleteTweet E s2 username tweetId).2 = invalidRequest) := by
  have hv1 : ∀ t ∈ s1.tweets, viewWhere E s1 username tweetId t = false := fun t ht =>
    where_false_of_not (viewWhere_iff E s1 username tweetId t)
      (fun hid => absurd hid (by simp [habsent t ht]))
  have he1 : ∀ t ∈ s1.tweets, engageWhere E s1 username tweetId t = false := fun t ht =>
    where_false_of_not (engageWhere_iff E s1 username tweetId t)
      (fun hid => absurd hid (by simp [habsent t ht]))
  have hd1 : ∀ t ∈ s1.tweets, deleteWhere E s1 username tweetId t = false := fun t ht =>
    where_false_of_not (deleteWhere_iff E s1 username tweetId t)
      (fun hid => absurd hid (by simp [habsent t ht]))
  refine ⟨?_, ?_, ?_⟩
  · intro hno
    have hv2 : ∀ t ∈ s2.tweets, viewWhere E s2 username tweetId t = false := fun t ht =>
      where_false_of_not (viewWhere_iff E s2 username tweetId t) (hno t ht)
    refine ⟨⟨?_, getTweet_refused hv2⟩, ⟨?_, ?_⟩, ⟨?_, ?_⟩⟩
    · rw [getTweet_refused hv1, getTweet_refused hv2]
    · simp [getLikes, viewCheck_refused hv1, viewCheck_refused hv2]
    · simp [getLikes, viewCheck_refused hv2]
    · simp [getReplies, viewCheck_refused hv1, viewCheck_refused hv2]
    · simp [getReplies, viewCheck_refused hv2]
  · intro hno
    have he2 : ∀ t ∈ s2.tweets, engageWhere E s2 username tweetId t = false := fun t ht =>
      where_false_of_not (engageWhere_iff E s2 username tweetId t) (hno t ht)
    refine ⟨⟨?_, ?_⟩, ⟨?_, ?_⟩⟩
    · simp [postLike, engageCheck_refused he1, engageCheck_refused he2]
    · simp [postLike, engageCheck_refused he2]
    · simp [postReply, engageCheck_refused he1, engageCheck_refused he2]
    · simp [postReply, engageCheck_refused he2]
  · intro hno
    have hd2 : ∀ t ∈ s2.tweets, deleteWhere E s2 username tweetId t = false := fun t ht =>
      where_false_of_not (deleteWhere_iff E s2 username tweetId t) (hno t ht)
    rw [deleteTweet_refused hd1, deleteTweet_refused hd2]
    exact ⟨rfl, rfl⟩

/-- C7 fails on the code.  Read handlers: the account with username "1" has
user id 2, is not the author of tweet 1 (alice, user id 1, is) and follows
nobody, so it is not permitted on the tweet; before the tweet exists the three
read handlers answer it 401 "Invalid Request", and once it exists they answer
200 with the tweet, its likers and its replies, because `t.user_id = ?` is
bound to the username "1".  Like and reply handlers: in `thirdPartyStore` the
account with username "1" has user id 3 and follows nobody; before bob's tweet
1 exists its like and reply are answered 401, and once it exists they are
answered 200, because `f.follower_user_id = ?` is bound to the username "1"
and alice (user id 1) follows bob. -/
theorem refusal_reveals_existence :
    (userIdOf noPostStore "1" = some 2 ∧ userIdOf ownPostStore "1" = some 2 ∧
      noPostStore.users = ownPostStore.users ∧
      noPostStore.followers = ownPostStore.followers ∧
      (∀ t ∈ noPostStore.tweets, sqlIntEqText sqlite3 t.tweet_id "1" = false) ∧
      (∃ t ∈ ownPostStore.tweets, sqlIntEqText sqlite3 t.tweet_id "1" = true) ∧
      (∀ t ∈ ownPostStore.tweets, sqlIntEqText sqlite3 t.tweet_id "1" = true →
        t.user_id ≠ 2 ∧
        ¬ ∃ f ∈ ownPostStore.followers,
          f.follower_user_id = 2 ∧ f.following_user_id = t.user_id) ∧
      getTweet sqlite3 noPostStore "1" "1" = invalidRequest ∧
      getTweet sqlite3 ownPostStore "1" "1" = ok (.tweet ⟨"p1", 0, 0, 5⟩) ∧
      getLikes sqlite3 noPostStore "1" "1" = invalidRequest ∧
      getLikes sqlite3 ownPostStore "1" "1" = ok (.likes []) ∧
      getReplies sqlite3 noPostStore "1" "1" = invalidRequest ∧
      getReplies sqlite3 ownPostStore "1" "1" = ok (.replies [])) ∧
    (userIdOf thirdPartyStoreBefore "1" = some 3 ∧ userIdOf thirdPartyStore "1" = some 3 ∧
      (∀ t ∈ thirdPartyStoreBefore.tweets, sqlIntEqText sqlite3 t.tweet_id "1" = false) ∧
      (∃ t ∈ thirdPartyStore.tweets, sqlIntEqText sqlite3 t.tweet_id "1" = true) ∧
      (∀ f ∈ thirdPartyStore.followers, f.follower_user_id ≠ 3) ∧
      (postLike sqlite3 thirdPartyStoreBefore "1" "1").2 = invalidRequest ∧
      (postLike sqlite3 thirdPartyStore "1" "1").2 = ok (.text "Liked the Tweet") ∧
      (postReply sqlite3 thirdPartyStoreBefore "1" "1" "hi").2 = invalidRequest ∧
      (postReply sqlite3 thirdPartyStore "1" "1" "hi").2 = ok (.text "Replied to the Tweet")) := by
  decide

/-! ## The access checks bind the username where a user id is compared -/

/-- C1 fails on the code: alice, the author of tweet 1, is refused that
tweet by all three read handlers, because the WHERE clause compares
`t.user_id` with the username; and the account with username "1" (user id 2),
who is not the author and follows nobody, is granted the tweet, because the
text "1" compares equal to the author's user id 1. -/
theorem view_own_post_refused :
    userIdOf ownPostStore "alice" = some 1 ∧
    (∃ t ∈ ownPostStore.tweets, sqlIntEqText sqlite3 t.tweet_id "1" = true ∧ t.user_id = 1) ∧
    getTweet sqlite3 ownPostStore "alice" "1" = invalidRequest ∧
    getLikes sqlite3 ownPostStore "alice" "1" = invalidRequest ∧
    getReplies sqlite3 ownPostStore "alice" "1" = invalidRequest ∧
    userIdOf ownPostStore "1" = some 2 ∧
    ownPostStore.followers = [] ∧
    getTweet sqlite3 ownPostStore "1" "1" = ok (.tweet ⟨"p1", 0, 0, 5⟩) := by
  decide

/-- C2 fails on the code: alice (user id 1) follows bob (user id 2), the
author of tweet 1, and alice's like and reply are both refused with nothing
inserted, because the WHERE clause compares `f.follower_user_id` with the
username. -/
theorem like_by_follower_refused :
    userIdOf followStore "alice" = some 1 ∧
    (∃ t ∈ followStore.tweets, sqlIntEqText sqlite3 t.tweet_id "1" = true ∧ t.user_id = 2) ∧
    (⟨1, 2⟩ : FollowerRow) ∈ followStore.followers ∧
    postLike sqlite3 followStore "alice" "1" = (followStore, invalidRequest) ∧
    postReply sqlite3 followStore "alice" "1" "hi" = (followStore, invalidRequest) := by
  decide

/-! ## The counts of the detail row -/

theorem length_leftJoin {α : Type} (l : List α) : (leftJoin l).length = max l.length 1 := by
  cases l with
  | nil => rfl
  | cons a as => simp [leftJoin]

theorem countSome_leftJoin {α : Type} (l : List α) :
    ((leftJoin l).filter fun o => o.isSome).length = l.length := by
  cases l with
  | nil => rfl
  | cons a as =>
    have hall : ∀ (xs : List α), (xs.map some).filter (fun o => o.isSome) = xs.map some := by
      intro xs
      rw [List.filter_eq_self]
      intro o ho
      obtain ⟨x, _, rfl⟩ := List.mem_map.mp ho
      rfl
    simp only [leftJoin, hall, List.length_map]

theorem countLikeId_product (t : TweetRow) (ls : List (Option LikeRow))
    (rs : List (Option ReplyRow)) :
    countLikeId (ls.flatMap fun l => rs.map fun r => (⟨t, l, r⟩ : DetailJoinRow)) =
      (ls.filter fun o => o.isSome).length * rs.length := by
  unfold countLikeId
  induction ls with
  | nil => simp
  | cons l ls ih =>
    rw [List.flatMap_cons, List.filter_append, List.length_append, ih]
    cases l with
    | none =>
      have hnil : (rs.map fun r => (⟨t, none, r⟩ : DetailJoinRow)).filter
          (fun j => j.l.isSome) = [] := by
        rw [List.filter_eq_nil_iff]
        intro j hj
        obtain ⟨r, _, rfl⟩ := List.mem_map.mp hj
        simp
      simp [hnil]
    | some l0 =>
      have hall : (rs.map fun r => (⟨t, some l0, r⟩ : DetailJoinRow)).filter
          (fun j => j.l.isSome) = rs.map fun r => (⟨t, some l0, r⟩ : DetailJoinRow) := by
        rw [List.filter_eq_self]
        intro j hj
        obtain ⟨r, _, rfl⟩ := List.mem_map.mp hj
        rfl
      rw [hall]
      simp [Nat.add_mul, Nat.add_comm]

theorem countReplyId_product (t : TweetRow) (ls : List (Option LikeRow))
    (rs : List (Option ReplyRow)) :
    countReplyId (ls.flatMap fun l => rs.map fun r => (⟨t, l, r⟩ : DetailJoinRow)) =
      ls.length * (rs.filter fun o => o.isSome).length := by
  unfold countReplyId
  induction ls with
  | nil => simp
  | cons l ls ih =>
    rw [List.flatMap_cons, List.filter_append, List.length_append, ih]
    have hmap : (rs.map fun r => (⟨t, l, r⟩ : DetailJoinRow)).filter (fun j => j.r.isSome) =
        (rs.filter fun o => o.isSome).map fun r => (⟨t, l, r⟩ : DetailJoinRow) := by
      rw [List.filter_map]
      rfl
    rw [hmap, List.length_map, List.length_cons, Nat.add_mul, Nat.one_mul, Nat.add_comm]

/-- The detail row in general, when one tweet row `t` passes the WHERE
clause: with `L` like rows and `R` reply rows on the tweet, `likes` is
`L * max R 1` and `replies` is `max L 1 * R`; so `likes` is the number of like
rows only when the tweet has at most one reply or no like, and `replies` is the
number of reply rows only when the tweet has at most one like or no reply. -/
theorem getTweet_counts (E : SqlEngine) (s : Store) (username tweetId : String) (t : TweetRow)
    (h : s.tweets.filter (viewWhere E s username tweetId) = [t]) :
    getTweet E s username tweetId =
      ok (.tweet ⟨t.tweet,
        (s.likes.filter fun l => t.tweet_id == l.tweet_id).length *
          max (s.replies.filter fun r => t.tweet_id == r.tweet_id).length 1,
        max (s.likes.filter fun l => t.tweet_id == l.tweet_id).length 1 *
          (s.replies.filter fun r => t.tweet_id == r.tweet_id).length,
        t.date_time⟩) := by
  have hjoin : detailJoin E s username tweetId = detailRowsOf s t := by
    rw [detailJoin_eq, h]
    simp
  obtain ⟨j, js, hj, hjt⟩ := detailRowsOf_ne_nil s t
  have hl : countLikeId (detailRowsOf s t) =
      (s.likes.filter fun l => t.tweet_id == l.tweet_id).length *
        max (s.replies.filter fun r => t.tweet_id == r.tweet_id).length 1 := by
    rw [detailRowsOf, countLikeId_product, countSome_leftJoin, length_leftJoin]
  have hr : countReplyId (detailRowsOf s t) =
      max (s.likes.filter fun l => t.tweet_id == l.tweet_id).length 1 *
        (s.replies.filter fun r => t.tweet_id == r.tweet_id).length := by
    rw [detailRowsOf, countReplyId_product, countSome_leftJoin, length_leftJoin]
  rw [hj] at hl hr
  simp only [getTweet, hjoin, hj, hl, hr, hjt]

/-- C6 fails on the code: tweet 1 has two like rows and two reply rows, and
the row returned for it says `likes = 4` and `replies = 4`, because each COUNT
runs over the product of the two LEFT JOINs. -/
theorem getTweet_counts_product :
    (twoByTwoStore.likes.filter fun l => l.tweet_id == 1).length = 2 ∧
    (twoByTwoStore.replies.filter fun r => r.tweet_id == 1).length = 2 ∧
    getTweet sqlite3 twoByTwoStore "1" "1" = ok (.tweet ⟨"p1", 4, 4, 5⟩) := by
  decide

/-! ## Token extraction at the entry points -/

theorem jsSplit_of_not_mem (sep : Char) (l : List Char) (h : sep ∉ l) :
    jsSplit sep l = [l] := by
  induction l with
  | nil => rfl
  | cons c cs ih =>
    have hc : c ≠ sep := fun hc => h (by simp [hc])
    have hcs : sep ∉ cs := fun hmem => h (List.mem_cons_of_mem c hmem)
    simp [jsSplit, hc, ih hcs]

theorem blank_mem_of_bearerToken {authHeader token : String}
    (h : bearerToken (some authHeader) = some token) : ' ' ∈ authHeader.data := by
  by_contra hno
  simp [bearerToken, jsSplit_of_not_mem ' ' authHeader.data hno] at h

/-- C10 fails on the code: whatever the token library (provided, as
`jsonwebtoken` does, it rejects a token with a blank in it), whatever the
value of `JWT_SECRET` and whatever the header, the middleware
`authenticateToken` and the inline verification never both accept: the
middleware takes the piece after the first blank, the inline code takes the
whole header. -/
theorem no_header_accepted_everywhere (J : Jwt)
    (hJ : ∀ token key username, J.verify token key = some username → ' ' ∉ token.data)
    (jwtSecret authorization : Option String) (u1 u2 : String) :
    ¬ (authenticateToken J jwtSecret authorization = .next u1 ∧
        inlineVerify J jwtSecret authorization = .next u2) := by
  rintro ⟨hmw, hinline⟩
  cases authorization with
  | none => simp [inlineVerify] at hinline
  | some header =>
    have hblank : ' ' ∈ header.data := by
      cases hb : bearerToken (some header) with
      | none => simp [authenticateToken, hb] at hmw
      | some token => exact blank_mem_of_bearerToken hb
    cases hv : J.verify header jwtSecret with
    | none =>
      simp only [inlineVerify, hv] at hinline
      split at hinline <;> cases hinline
    | some username => exact hJ header jwtSecret username hv hblank

/-- C10, at concrete inputs: alice logs in and gets a token; behind "Bearer "
it passes the middleware (when `JWT_SECRET` is the signing constant) and fails
the inline verification; alone it fails the middleware and passes the inline
verification; and with `JWT_SECRET` unset every entry point refuses it. -/
theorem no_header_accepted_everywhere_witness :
    login demoBcrypt demoJwt loginStore "alice" "secret1" =
      ok (.jwtToken "your-secret-key.alice") ∧
    authenticateToken demoJwt (some jwtSecretKey) (some "Bearer your-secret-key.alice") =
      .next "alice" ∧
    inlineVerify demoJwt (some jwtSecretKey) (some "Bearer your-secret-key.alice") =
      .refused invalidJwtToken ∧
    authenticateToken demoJwt (some jwtSecretKey) (some "your-secret-key.alice") =
      .refused invalidJwtToken ∧
    inlineVerify demoJwt (some jwtSecretKey) (some "your-secret-key.alice") = .next "alice" ∧
    authenticateToken demoJwt none (some "Bearer your-secret-key.alice") =
      .refused invalidJwtToken ∧
    inlineVerify demoJwt none (some "your-secret-key.alice") = .refused invalidJwtToken ∧
    routeDeleteTweet sqlite3 demoJwt (some jwtSecretKey) loginStore
      (some "Bearer your-secret-key.alice") "1" = (loginStore, invalidJwtToken) ∧
    routeGetFeed demoJwt (some jwtSecretKey) loginStore (some "your-secret-key.alice") =
      invalidJwtToken ∧
    ¬ (authenticateToken demoJwt (some jwtSecretKey) (some "Bearer your-secret-key.alice") =
          .next "alice" ∧
        inlineVerify demoJwt (some jwtSecretKey) (some "Bearer your-secret-key.alice") =
          .next "alice") :=
  ⟨by decide, by decide, by decide, by decide, by decide, by decide, by decide, by decide,
    by decide,
    no_header_accepted_everywhere demoJwt
      (by
        intro token key username h
        cases key with
        | none => simp [demoJwt] at h
        | some k =>
          intro hblank
          simp [demoJwt, hblank] at h)
      (some jwtSecretKey) (some "Bearer your-secret-key.alice") "alice" "alice"⟩

end TwitterClone
